import Mathlib

/-!
Shallow embedding of the Opening-Range-Breakout (ORB) stock trading bot
(`enhanced_orb_stock_bot.py`, with the simpler `orb_stock_bot.py` variant
sharing the same trade-lifecycle logic).

Prices, volumes and P&L are modelled as exact rationals (`ℚ`); Python's
`int(x)` truncation on share counts is modelled by natural-number division
(all share counts in the program are non-negative).  External collaborators
(market-data fetch, Telegram, JSON persistence) are outside the model: the
functions below are the pure decision cores, parameterised on the data the
Python code fetches.
-/

namespace ORB

/-- One OHLCV bar as returned by the market-data collaborator. -/
structure Bar where
  high : ℚ
  low : ℚ
  close : ℚ
  volume : ℚ
deriving DecidableEq, Repr

/-- Mean of a list of rationals (`series.mean()`); `0` on the empty list,
which only ever feeds guarded comparisons in the code. -/
def listMean (l : List ℚ) : ℚ :=
  l.sum / (l.length : ℚ)

/-- Mean of the last `k` elements (`series.tail(k).mean()`); if the series is
shorter than `k`, pandas' `tail` keeps the whole series. -/
def tailMean (k : ℕ) (l : List ℚ) : ℚ :=
  listMean (l.drop (l.length - k))

/-- Result record of `enhanced_volume_analysis`. -/
structure VolumeAnalysis where
  volume_surge : ℚ
  volume_trend : ℚ
  is_strong_volume : Bool
  avg_volume_20 : ℚ
  current_volume : ℚ
deriving DecidableEq, Repr

/-- `enhanced_volume_analysis` (enhanced bot, lines 168-196): volume surge is
current volume over the trailing-20 mean, volume trend is the trailing-5 mean
over the trailing-20 mean, each guarded to fall back to `1` when the
trailing-20 mean is not positive; strong volume requires surge ≥ 2.0 and
trend ≥ 1.2.  An empty series hits the function's exception fallback. -/
def enhanced_volume_analysis (volumes : List ℚ) : VolumeAnalysis :=
  match volumes.getLast? with
  | none =>
      { volume_surge := 1
        volume_trend := 1
        is_strong_volume := false
        avg_volume_20 := 0
        current_volume := 0 }
  | some current_volume =>
      let avg_volume_20 := tailMean 20 volumes
      let volume_surge := if avg_volume_20 > 0 then current_volume / avg_volume_20 else 1
      let volume_trend :=
        if tailMean 20 volumes > 0 then tailMean 5 volumes / tailMean 20 volumes else 1
      { volume_surge := volume_surge
        volume_trend := volume_trend
        is_strong_volume := decide (volume_surge ≥ 2 ∧ volume_trend ≥ 6/5)
        avg_volume_20 := avg_volume_20
        current_volume := current_volume }

/-- Opening-range record built by `calculate_opening_range`. -/
structure OpeningRange where
  orh : ℚ
  orl : ℚ
  range_size : ℚ
  volume_avg : ℚ
deriving DecidableEq, Repr

/-- `calculate_opening_range` (enhanced bot, lines 309-344): take the leading
six 5-minute bars, set the range high to the maximum bar high and the range
low to the minimum bar low over that window, and record the trailing-20 mean
volume (mean of all bars when fewer than 20 exist).  Returns `none` when the
data collaborator supplied no bars. -/
def calculate_opening_range (bars : List Bar) : Option OpeningRange :=
  match bars.take 6 with
  | [] => none
  | b :: rest =>
      some { orh := (rest.map Bar.high).foldl max b.high
             orl := (rest.map Bar.low).foldl min b.low
             range_size := (rest.map Bar.high).foldl max b.high -
               (rest.map Bar.low).foldl min b.low
             volume_avg :=
               if bars.length ≥ 20 then tailMean 20 (bars.map Bar.volume)
               else listMean (bars.map Bar.volume) }

/-- A wall-clock local time as the session resolver reads it (`.hour`,
`.minute` of the Dubai-localised timestamp). -/
structure LocalTime where
  hour : ℕ
  minute : ℕ
deriving DecidableEq, Repr

/-- The US-session membership test of `get_optimal_trading_sessions`
(enhanced bot, lines 247-251): the session spanning local midnight is open
exactly when the local hour is ≥ 18 or ≤ 1. -/
def us_session_active (t : LocalTime) : Bool :=
  decide (t.hour ≥ 18) || decide (t.hour ≤ 1)

/-- Trade direction. -/
inductive Direction where
  | LONG
  | SHORT
deriving DecidableEq, Repr

/-- Market-condition label returned by `get_market_condition`. -/
inductive MarketCond where
  | WEAK
  | NORMAL
  | TRENDING
  | HIGH_VOLATILITY
deriving DecidableEq, Repr

/-- Printable name of a market condition (for notification text). -/
def MarketCond.name : MarketCond → String
  | .WEAK => "WEAK"
  | .NORMAL => "NORMAL"
  | .TRENDING => "TRENDING"
  | .HIGH_VOLATILITY => "HIGH_VOLATILITY"

/-- The four confirmation flags assembled by `enhanced_entry_conditions`
(lines 380-386). -/
structure Confirmations where
  volume_strong : Bool
  bias_aligned : Bool
  market_suitable : Bool
  volume_surge : Bool
deriving DecidableEq, Repr

/-- `sum(confirmations.values())`: the number of true flags. -/
def confirmation_count (c : Confirmations) : ℕ :=
  (if c.volume_strong then 1 else 0) + (if c.bias_aligned then 1 else 0) +
    (if c.market_suitable then 1 else 0) + (if c.volume_surge then 1 else 0)

/-- The confirmation dictionary of `enhanced_entry_conditions`: strong volume,
higher-timeframe bias alignment, a suitable market condition, and a volume
surge of at least 1.5×. -/
def mkConfirmations (market_condition : MarketCond) (va : VolumeAnalysis)
    (aligned : Bool) : Confirmations :=
  { volume_strong := va.is_strong_volume
    bias_aligned := aligned
    market_suitable := decide (market_condition = .NORMAL ∨
      market_condition = .TRENDING ∨ market_condition = .HIGH_VOLATILITY)
    volume_surge := decide (va.volume_surge ≥ 3/2) }

/-- The entry proposal returned on a confirmed breakout. -/
structure EntryProposal where
  direction : Direction
  entry_price : ℚ
  stop_loss : ℚ
  target1 : ℚ
  target2 : ℚ
  target3 : ℚ
  target_rr : ℚ
  market_condition : MarketCond
  confirmations : Confirmations
deriving DecidableEq, Repr

/-- `enhanced_entry_conditions` (lines 346-429), parameterised on the values
the Python code computes from fetched data: the symbol's opening range, the
current price, the market condition with its target risk:reward, the volume
analysis and the higher-timeframe bias alignment.  Detects the breakout
direction, requires at least 3 of the 4 confirmations, and computes
entry/stop/targets with the 0.05/0.10 slippage offsets. -/
def enhanced_entry_conditions (orb : OpeningRange) (current_price : ℚ)
    (market_condition : MarketCond) (target_rr : ℚ) (va : VolumeAnalysis)
    (aligned : Bool) : Option EntryProposal × String :=
  match (if current_price > orb.orh then some Direction.LONG
         else if current_price < orb.orl then some Direction.SHORT
         else none : Option Direction) with
  | none => (none, "No breakout detected")
  | some breakout_direction =>
      let confirmations := mkConfirmations market_condition va aligned
      if confirmation_count confirmations ≥ 3 then
        match breakout_direction with
        | .LONG =>
            (some { direction := .LONG
                    entry_price := orb.orh + 5/100
                    stop_loss := orb.orl - 10/100
                    target1 := (orb.orh + 5/100) +
                      target_rr * ((orb.orh + 5/100) - (orb.orl - 10/100))
                    target2 := (orb.orh + 5/100) +
                      (target_rr + 1) * ((orb.orh + 5/100) - (orb.orl - 10/100))
                    target3 := (orb.orh + 5/100) + 2 * orb.range_size
                    target_rr := target_rr
                    market_condition := market_condition
                    confirmations := confirmations },
             "Enhanced entry confirmed: " ++ market_condition.name ++ " market")
        | .SHORT =>
            (some { direction := .SHORT
                    entry_price := orb.orl - 5/100
                    stop_loss := orb.orh + 10/100
                    target1 := (orb.orl - 5/100) -
                      target_rr * ((orb.orh + 10/100) - (orb.orl - 5/100))
                    target2 := (orb.orl - 5/100) -
                      (target_rr + 1) * ((orb.orh + 10/100) - (orb.orl - 5/100))
                    target3 := (orb.orl - 5/100) - 2 * orb.range_size
                    target_rr := target_rr
                    market_condition := market_condition
                    confirmations := confirmations },
             "Enhanced entry confirmed: " ++ market_condition.name ++ " market")
      else
        (none, "Entry conditions not met (" ++
          toString (confirmation_count confirmations) ++ "/4 confirmations)")

/-- Bot risk configuration (constructor defaults of the enhanced bot). -/
structure BotConfig where
  account_size : ℚ
  risk_per_trade : ℚ
  max_trades_per_day : ℕ
  max_daily_loss : ℚ
deriving DecidableEq, Repr

/-- The rolling `daily_stats` record. -/
structure DailyStats where
  trades_today : ℕ
  daily_pnl : ℚ
  consecutive_losses : ℕ
  win_rate : ℚ
  avg_rr_achieved : ℚ
deriving DecidableEq, Repr

/-- Python `int(q)` on a rational: truncation toward zero. -/
def pyInt (q : ℚ) : ℤ :=
  if 0 ≤ q then ⌊q⌋ else ⌈q⌉

/-- The market-condition risk multiplier of `calculate_position_size`
(lines 439-444); the dictionary covers every condition, so the `.get`
default of 1.0 is unreachable. -/
def risk_multiplier : MarketCond → ℚ
  | .WEAK => 1/2
  | .NORMAL => 1
  | .TRENDING => 6/5
  | .HIGH_VOLATILITY => 4/5

/-- `calculate_position_size` (lines 431-457): risk budget over per-share
risk, capped so the notional exposure stays within 2% of the account. -/
def calculate_position_size (cfg : BotConfig) (entry_price stop_loss : ℚ)
    (market_condition : MarketCond) : ℤ :=
  if |entry_price - stop_loss| ≤ 0 then 0
  else
    min (pyInt (cfg.account_size * cfg.risk_per_trade *
          risk_multiplier market_condition / |entry_price - stop_loss|))
      (pyInt (cfg.account_size * (2/100) / entry_price))

/-- The mutable per-trade record created by `execute_trade`.  `stop_loss`
keeps the original stop for the trade's whole life; only `current_stop`
moves.  `position_size` is a share count (non-negative), so Python's `int()`
truncation on it is natural-number floor division. -/
structure Trade where
  direction : Direction
  entry_price : ℚ
  stop_loss : ℚ
  target1 : ℚ
  target2 : ℚ
  target3 : ℚ
  target_rr : ℚ
  market_condition : MarketCond
  position_size : ℕ
  tp1_hit : Bool
  tp2_hit : Bool
  current_stop : ℚ
deriving DecidableEq, Repr

/-- The trade record `execute_trade` creates from an accepted proposal
(lines 499-520): flags cleared, `current_stop` initialised to the stop. -/
def mkTrade (td : EntryProposal) (position_size : ℕ) : Trade :=
  { direction := td.direction
    entry_price := td.entry_price
    stop_loss := td.stop_loss
    target1 := td.target1
    target2 := td.target2
    target3 := td.target3
    target_rr := td.target_rr
    market_condition := td.market_condition
    position_size := position_size
    tp1_hit := false
    tp2_hit := false
    current_stop := td.stop_loss }

/-- `execute_trade` (lines 478-562), decision core: the daily risk governor
(trade-count and loss limits), position sizing, and trade creation with the
`trades_today` increment.  Returns the created trade (or `none` on
rejection), the updated daily stats, and the result message. -/
def execute_trade (cfg : BotConfig) (stats : DailyStats) (td : EntryProposal) :
    Option Trade × DailyStats × String :=
  if stats.trades_today ≥ cfg.max_trades_per_day then
    (none, stats, "Daily trade limit reached")
  else if |stats.daily_pnl| ≥ cfg.account_size * cfg.max_daily_loss then
    (none, stats, "Daily loss limit reached")
  else
    let position_size :=
      calculate_position_size cfg td.entry_price td.stop_loss td.market_condition
    if position_size ≤ 0 then
      (none, stats, "Position size too small")
    else
      (some (mkTrade td position_size.toNat),
       { stats with trades_today := stats.trades_today + 1 },
       "Enhanced trade executed")

/-- `hit_take_profit` (lines 616-654): target 1 halves the position
(`int(size * 0.5)`), target 2 keeps a quarter of the size the trade has at
that moment (`int(size * 0.25)`). -/
def hit_take_profit (trade : Trade) (tp_level : ℕ) : Trade :=
  if tp_level = 1 then
    { trade with tp1_hit := true, position_size := trade.position_size / 2 }
  else if tp_level = 2 then
    { trade with tp2_hit := true, position_size := trade.position_size / 4 }
  else trade

/-- The breakeven trailing-stop block at the end of `monitor_active_trades`
(lines 602-611): between TP1 and TP2 the stop moves to the entry price, and
only in the tightening direction. -/
def apply_trailing (trade : Trade) : Trade :=
  if trade.tp1_hit ∧ ¬trade.tp2_hit then
    if trade.direction = Direction.LONG then
      if trade.entry_price > trade.current_stop then
        { trade with current_stop := trade.entry_price }
      else trade
    else
      if trade.entry_price < trade.current_stop then
        { trade with current_stop := trade.entry_price }
      else trade
  else trade

/-- Outcome of one monitoring pass over a single active trade. -/
inductive MonitorResult where
  | closed (exit_price : ℚ) (reason : String)
  | active (trade : Trade)
deriving DecidableEq, Repr

/-- One iteration of `monitor_active_trades` (lines 564-614) for one trade at
the latest price: stop-loss check, the take-profit `if`/`elif` ladder, the
target-3 close, then the breakeven trailing-stop block on trades that stay
active. -/
def monitor_step (trade : Trade) (current_price : ℚ) : MonitorResult :=
  if trade.direction = Direction.LONG ∧ current_price ≤ trade.current_stop then
    MonitorResult.closed current_price "Stop Loss Hit"
  else if trade.direction = Direction.SHORT ∧ current_price ≥ trade.current_stop then
    MonitorResult.closed current_price "Stop Loss Hit"
  else if trade.direction = Direction.LONG then
    if ¬trade.tp1_hit ∧ current_price ≥ trade.target1 then
      MonitorResult.active (apply_trailing (hit_take_profit trade 1))
    else if ¬trade.tp2_hit ∧ current_price ≥ trade.target2 then
      MonitorResult.active (apply_trailing (hit_take_profit trade 2))
    else if current_price ≥ trade.target3 then
      MonitorResult.closed current_price "Target 3 Hit"
    else
      MonitorResult.active (apply_trailing trade)
  else
    if ¬trade.tp1_hit ∧ current_price ≤ trade.target1 then
      MonitorResult.active (apply_trailing (hit_take_profit trade 1))
    else if ¬trade.tp2_hit ∧ current_price ≤ trade.target2 then
      MonitorResult.active (apply_trailing (hit_take_profit trade 2))
    else if current_price ≤ trade.target3 then
      MonitorResult.closed current_price "Target 3 Hit"
    else
      MonitorResult.active (apply_trailing trade)

/-- The audit fields `close_trade` computes for the closing trade. -/
structure ClosedTrade where
  pnl : ℚ
  actual_rr : ℚ
deriving DecidableEq, Repr

/-- The P&L and achieved risk:reward computed by `close_trade`
(lines 656-677): P&L over the position size remaining at closure, and
`actual_rr = pnl / risk_amount` with `risk_amount` built from the original
stop and that same remaining size, defaulting to 0 when the denominator is
not positive. -/
def close_trade (trade : Trade) (exit_price : ℚ) : ClosedTrade :=
  { pnl :=
      if trade.direction = Direction.LONG then
        (exit_price - trade.entry_price) * (trade.position_size : ℚ)
      else
        (trade.entry_price - exit_price) * (trade.position_size : ℚ)
    actual_rr :=
      if |trade.entry_price - trade.stop_loss| * (trade.position_size : ℚ) > 0 then
        (if trade.direction = Direction.LONG then
          (exit_price - trade.entry_price) * (trade.position_size : ℚ)
         else
          (trade.entry_price - exit_price) * (trade.position_size : ℚ)) /
        (|trade.entry_price - trade.stop_loss| * (trade.position_size : ℚ))
      else 0 }

/-- The stats-and-history update of `close_trade` (lines 679-697): append to
the closed-trade history, accumulate daily P&L, bump or reset
`consecutive_losses` on the sign of the P&L, and recompute win rate and
average achieved risk:reward over the whole history. -/
def close_trade_update (trade : Trade) (exit_price : ℚ)
    (history : List ClosedTrade) (stats : DailyStats) :
    ClosedTrade × List ClosedTrade × DailyStats :=
  let c := close_trade trade exit_price
  let history2 := history ++ [c]
  let total_trades := history2.length
  let winning_trades := (history2.filter (fun t => decide (t.pnl > 0))).length
  (c, history2,
   { trades_today := stats.trades_today
     daily_pnl := stats.daily_pnl + c.pnl
     consecutive_losses :=
       if c.pnl < 0 then stats.consecutive_losses + 1 else 0
     win_rate :=
       if total_trades > 0 then (winning_trades : ℚ) / (total_trades : ℚ) * 100 else 0
     avg_rr_achieved :=
       if total_trades > 0 then
         (history2.map ClosedTrade.actual_rr).sum / (total_trades : ℚ)
       else 0 })

/-- Modelled from the spec (§4.6): the amended achieved-risk:reward formula,
`pnl / (|entry − original_stop| × size)` with the size *remaining at close*
in the denominator, and 0 when that denominator is 0. -/
def achieved_rr_amended (direction : Direction) (entry original_stop : ℚ)
    (remaining_size : ℕ) (exit_price : ℚ) : ℚ :=
  let pnl :=
    if direction = Direction.LONG then (exit_price - entry) * (remaining_size : ℚ)
    else (entry - exit_price) * (remaining_size : ℚ)
  if |entry - original_stop| * (remaining_size : ℚ) = 0 then 0
  else pnl / (|entry - original_stop| * (remaining_size : ℚ))

/- ### Helper lemmas on fold-based maxima and minima -/

theorem init_le_foldl_max (init : ℚ) (l : List ℚ) : init ≤ l.foldl max init := by
  induction l generalizing init with
  | nil => exact le_refl _
  | cons x xs ih =>
      exact le_trans (le_max_left init x) (ih (max init x))

theorem foldl_min_le_init (init : ℚ) (l : List ℚ) : l.foldl min init ≤ init := by
  induction l generalizing init with
  | nil => exact le_refl _
  | cons x xs ih =>
      exact le_trans (ih (min init x)) (min_le_left init x)

/- ### Helper lemmas about the trade-lifecycle steps -/

theorem hit_take_profit_current_stop (t : Trade) (k : ℕ) :
    (hit_take_profit t k).current_stop = t.current_stop := by
  unfold hit_take_profit
  split_ifs <;> rfl

theorem hit_take_profit_direction (t : Trade) (k : ℕ) :
    (hit_take_profit t k).direction = t.direction := by
  unfold hit_take_profit
  split_ifs <;> rfl

theorem apply_trailing_stop_long (t : Trade) (h : t.direction = Direction.LONG) :
    t.current_stop ≤ (apply_trailing t).current_stop := by
  unfold apply_trailing
  split_ifs with h1 h2
  · exact le_of_lt h2
  · exact le_refl _
  · exact le_refl _

theorem apply_trailing_stop_short (t : Trade) (h : t.direction = Direction.SHORT) :
    (apply_trailing t).current_stop ≤ t.current_stop := by
  unfold apply_trailing
  split_ifs with h1 h2 h3 h4
  · exact Direction.noConfusion (h.symm.trans h2)
  · exact Direction.noConfusion (h.symm.trans h2)
  · exact le_of_lt h4
  · exact le_refl _
  · exact le_refl _

theorem stop_tighten_of_same (trade X t' : Trade)
    (hdir : X.direction = trade.direction)
    (hstop : X.current_stop = trade.current_stop)
    (ht : apply_trailing X = t') :
    (trade.direction = Direction.LONG → trade.current_stop ≤ t'.current_stop) ∧
    (trade.direction = Direction.SHORT → t'.current_stop ≤ trade.current_stop) := by
  subst ht
  constructor
  · intro hL
    have hx := apply_trailing_stop_long X (by rw [hdir, hL])
    rw [hstop] at hx
    exact hx
  · intro hS
    have hx := apply_trailing_stop_short X (by rw [hdir, hS])
    rw [hstop] at hx
    exact hx

/- ### Concrete fixtures used by witnesses and counterexamples -/

/-- A LONG trade entered with 100 shares, used for the partial-close claims. -/
def tradeC1 : Trade :=
  { direction := .LONG, entry_price := 100, stop_loss := 90, target1 := 125
    target2 := 135, target3 := 140, target_rr := 3, market_condition := .NORMAL
    position_size := 100, tp1_hit := false, tp2_hit := false, current_stop := 90 }

/-- A LONG trade entered with 100 shares, for the achieved-RR counterexample. -/
def tradeC2 : Trade :=
  { direction := .LONG, entry_price := 100, stop_loss := 90, target1 := 110
    target2 := 115, target3 := 125, target_rr := 2, market_condition := .NORMAL
    position_size := 100, tp1_hit := false, tp2_hit := false, current_stop := 90 }

/-- A fresh LONG trade monitored at a price between stop and first target. -/
def tradeC3 : Trade :=
  { direction := .LONG, entry_price := 100, stop_loss := 90, target1 := 125
    target2 := 135, target3 := 140, target_rr := 3, market_condition := .NORMAL
    position_size := 100, tp1_hit := false, tp2_hit := false, current_stop := 90 }

/- ### Claims -/

/-- C1: after TP1 the position size is floor(original × 0.5), as claimed; but
after TP2 the code keeps `int(current × 0.25)` of the *already halved* size:
for an original size of 100 shares it keeps 12, not the claimed
floor(100 × 0.25) = 25 (the code's own "75% position closed" message implies
25 should remain). -/
theorem C1_tp2_size_divergence :
    (hit_take_profit tradeC1 1).position_size = tradeC1.position_size / 2 ∧
    (hit_take_profit (hit_take_profit tradeC1 1) 2).position_size = 12 ∧
    tradeC1.position_size / 4 = 25 ∧ (12 : ℕ) ≠ 25 := by
  decide

/-- C2 counterexample: a trade entered with 100 shares whose TP1 halves it to
50; closing at 120 yields `actual_rr = 2` in the code (denominator uses the
remaining 50 shares), while the claimed formula over the original 100 shares
gives 1. -/
theorem C2_counterexample :
    (close_trade (hit_take_profit tradeC2 1) 120).actual_rr ≠
      (close_trade (hit_take_profit tradeC2 1) 120).pnl /
        (|tradeC2.entry_price - tradeC2.stop_loss| * (tradeC2.position_size : ℚ)) := by
  norm_num [close_trade, hit_take_profit, tradeC2]

/-- C2 (amended): the achieved risk:reward recorded on close equals the
realized P&L divided by |entry − original_stop| × the position size
*remaining at close* (not the original size at entry), with quotient 0 when
that denominator is 0. -/
theorem C2_amended_rr (trade : Trade) (exit_price : ℚ) :
    (close_trade trade exit_price).actual_rr =
      achieved_rr_amended trade.direction trade.entry_price trade.stop_loss
        trade.position_size exit_price := by
  unfold close_trade achieved_rr_amended
  have hnn : 0 ≤ |trade.entry_price - trade.stop_loss| * (trade.position_size : ℚ) :=
    mul_nonneg (abs_nonneg _) (Nat.cast_nonneg _)
  rcases eq_or_lt_of_le hnn with hz | hp
  · simp [← hz]
  · simp [hp, hp.ne']

/-- C3: one step of the trade-monitoring state machine never loosens the
stop of a trade that stays active: for a LONG trade `current_stop` does not
decrease, for a SHORT trade it does not increase. -/
theorem C3_stop_never_loosens (trade : Trade) (current_price : ℚ) (t' : Trade)
    (h : monitor_step trade current_price = MonitorResult.active t') :
    (trade.direction = Direction.LONG → trade.current_stop ≤ t'.current_stop) ∧
    (trade.direction = Direction.SHORT → t'.current_stop ≤ trade.current_stop) := by
  unfold monitor_step at h
  split_ifs at h
  all_goals
    first
      | exact MonitorResult.noConfusion h
      | (injection h with h
         exact stop_tighten_of_same trade _ t' (hit_take_profit_direction _ _)
           (hit_take_profit_current_stop _ _) h)
      | (injection h with h
         exact stop_tighten_of_same trade trade t' rfl rfl h)

/-- C3 witness: monitoring the concrete fresh LONG trade at price 110 keeps
it active and leaves the stop unchanged. -/
theorem C3_stop_never_loosens_witness :
    (tradeC3.direction = Direction.LONG →
      tradeC3.current_stop ≤ tradeC3.current_stop) ∧
    (tradeC3.direction = Direction.SHORT →
      tradeC3.current_stop ≤ tradeC3.current_stop) :=
  C3_stop_never_loosens tradeC3 110 tradeC3 (by decide)

/-- C8: the session resolver's wrap-aware test reports the overnight US
session (18:30 to 01:00 Dubai time) as open at 23:59 and at 00:30, and as
closed at 10:00. -/
theorem C8_overnight_session :
    us_session_active { hour := 23, minute := 59 } = true ∧
    us_session_active { hour := 0, minute := 30 } = true ∧
    us_session_active { hour := 10, minute := 0 } = false := by
  decide

/-- C4: on any breakout (price beyond either edge of the opening range), when
fewer than 3 of the 4 confirmation flags are true the entry engine returns no
proposal, and the rejection message reports the count of true flags. -/
theorem C4_quorum_rejection (orb : OpeningRange) (price : ℚ) (mc : MarketCond)
    (rr : ℚ) (va : VolumeAnalysis) (aligned : Bool)
    (hbreak : price > orb.orh ∨ price < orb.orl)
    (hcnt : confirmation_count (mkConfirmations mc va aligned) < 3) :
    enhanced_entry_conditions orb price mc rr va aligned =
      (none, "Entry conditions not met (" ++
        toString (confirmation_count (mkConfirmations mc va aligned)) ++
        "/4 confirmations)") := by
  unfold enhanced_entry_conditions
  have hge : ¬ 3 ≤ confirmation_count (mkConfirmations mc va aligned) := by omega
  rcases hbreak with hb | hb
  · simp [hb, hge]
  · by_cases h2 : price > orb.orh
    · simp [h2, hge]
    · simp [h2, hb, hge]

/-- Opening range fixture for the quorum-rejection witness. -/
def orbC4 : OpeningRange := { orh := 105, orl := 100, range_size := 5, volume_avg := 0 }

/-- A weak volume analysis: no surge, no trend, no strong-volume flag. -/
def vaC4 : VolumeAnalysis :=
  { volume_surge := 0, volume_trend := 0, is_strong_volume := false
    avg_volume_20 := 0, current_volume := 0 }

/-- C4 witness: an upside breakout (price 106 over range high 105) in a WEAK
market with weak volume and unaligned bias is rejected with a 0/4 count. -/
theorem C4_quorum_rejection_witness :
    enhanced_entry_conditions orbC4 106 MarketCond.WEAK 2 vaC4 false =
      (none, "Entry conditions not met (" ++
        toString (confirmation_count (mkConfirmations MarketCond.WEAK vaC4 false)) ++
        "/4 confirmations)") :=
  C4_quorum_rejection orbC4 106 MarketCond.WEAK 2 vaC4 false
    (Or.inl (by decide))
    (by norm_num [mkConfirmations, confirmation_count, vaC4]; decide)

/-- C5: the daily risk governor in `execute_trade` rejects any proposal —
creating no trade and leaving the stats unchanged — whenever the daily trade
count has reached the maximum or the absolute daily P&L has reached the
account-size loss cap, reporting which limit was hit. -/
theorem C5_risk_governor (cfg : BotConfig) (stats : DailyStats) (td : EntryProposal)
    (h : stats.trades_today ≥ cfg.max_trades_per_day ∨
      |stats.daily_pnl| ≥ cfg.account_size * cfg.max_daily_loss) :
    (execute_trade cfg stats td).1 = none ∧
    (execute_trade cfg stats td).2.1 = stats ∧
    ((execute_trade cfg stats td).2.2 = "Daily trade limit reached" ∨
      (execute_trade cfg stats td).2.2 = "Daily loss limit reached") := by
  unfold execute_trade
  rcases h with h | h
  · simp [h]
  · by_cases h2 : stats.trades_today ≥ cfg.max_trades_per_day
    · simp [h2]
    · simp [h2, h]

/-- Bot configuration at the enhanced bot's defaults. -/
def cfgC5 : BotConfig :=
  { account_size := 50000, risk_per_trade := 1/100
    max_trades_per_day := 5, max_daily_loss := 3/100 }

/-- Daily stats that have exhausted the 5-trade daily budget. -/
def statsC5 : DailyStats :=
  { trades_today := 5, daily_pnl := 0, consecutive_losses := 0
    win_rate := 0, avg_rr_achieved := 0 }

/-- A syntactically fine LONG proposal for the governor witness. -/
def tdC5 : EntryProposal :=
  { direction := .LONG, entry_price := 105, stop_loss := 100, target1 := 115
    target2 := 120, target3 := 125, target_rr := 2, market_condition := .NORMAL
    confirmations := { volume_strong := true, bias_aligned := true
                       market_suitable := true, volume_surge := true } }

/-- C5 witness: with `trades_today = 5` at the limit of 5, the proposal is
rejected, no trade is created, and the stats are unchanged. -/
theorem C5_risk_governor_witness :
    (execute_trade cfgC5 statsC5 tdC5).1 = none ∧
    (execute_trade cfgC5 statsC5 tdC5).2.1 = statsC5 ∧
    ((execute_trade cfgC5 statsC5 tdC5).2.2 = "Daily trade limit reached" ∨
      (execute_trade cfgC5 statsC5 tdC5).2.2 = "Daily loss limit reached") :=
  C5_risk_governor cfgC5 statsC5 tdC5 (Or.inl (by decide))

/-- C6: on every trade close, `consecutive_losses` becomes the previous count
plus one when the realized P&L is negative and 0 otherwise, and the new
`win_rate` is exactly the number of closed trades with positive P&L over the
total number of closed trades, times 100. -/
theorem C6_close_updates_streak_and_win_rate (trade : Trade) (exit_price : ℚ)
    (history : List ClosedTrade) (stats : DailyStats) :
    (close_trade_update trade exit_price history stats).2.2.consecutive_losses =
      (if (close_trade trade exit_price).pnl < 0
       then stats.consecutive_losses + 1 else 0) ∧
    (close_trade_update trade exit_price history stats).2.2.win_rate =
      (((close_trade_update trade exit_price history stats).2.1.countP
          (fun t => decide (t.pnl > 0)) : ℚ) / ((history.length + 1 : ℕ) : ℚ)) * 100 := by
  unfold close_trade_update
  refine ⟨rfl, ?_⟩
  simp [List.countP_eq_length_filter, List.length_append]

/-- A strong volume analysis: surge 2× with rising trend. -/
def vaC7 : VolumeAnalysis :=
  { volume_surge := 2, volume_trend := 2, is_strong_volume := true
    avg_volume_20 := 1, current_volume := 2 }

/-- C7: for the opening range with high 105 and low 100, a confirmed LONG
entry at target risk:reward 2.5 yields entry 105.05, stop 99.90, risk 5.15
and target1 = 105.05 + 2.5 × 5.15 = 117.925. -/
theorem C7_long_entry_computation :
    ((enhanced_entry_conditions orbC4 106 MarketCond.NORMAL (5/2) vaC7 true).1.map
        (fun p => (p.entry_price, p.stop_loss, p.entry_price - p.stop_loss, p.target1))) =
      some (10505/100, 999/10, 103/20, 4717/40) := by
  norm_num [enhanced_entry_conditions, orbC4, vaC7, mkConfirmations, confirmation_count]

/-- C9: every opening range computed from a non-empty series of well-formed
bars (each bar's low at most its high) satisfies high ≥ low and
`range_size = high − low ≥ 0`, because the high is the maximum bar high and
the low the minimum bar low over the same leading window. -/
theorem C9_opening_range_wellformed (bars : List Bar) (r : OpeningRange)
    (hwf : ∀ b ∈ bars, b.low ≤ b.high)
    (hr : calculate_opening_range bars = some r) :
    r.orl ≤ r.orh ∧ r.range_size = r.orh - r.orl ∧ 0 ≤ r.range_size := by
  unfold calculate_opening_range at hr
  rcases htake : bars.take 6 with _ | ⟨b, rest⟩
  · rw [htake] at hr
    cases hr
  · rw [htake] at hr
    have hb : b ∈ bars :=
      List.take_subset 6 bars (by rw [htake]; exact List.mem_cons_self b rest)
    have hbh : b.low ≤ b.high := hwf b hb
    have hle : (rest.map Bar.low).foldl min b.low ≤ (rest.map Bar.high).foldl max b.high :=
      le_trans (le_trans (foldl_min_le_init _ _) hbh) (init_le_foldl_max _ _)
    injection hr with hr
    subst hr
    exact ⟨hle, rfl, sub_nonneg.mpr hle⟩

/-- Bar series fixture: two well-formed bars. -/
def barsC9 : List Bar :=
  [{ high := 105, low := 100, close := 102, volume := 0 },
   { high := 104, low := 101, close := 103, volume := 0 }]

/-- The opening range of `barsC9`. -/
def orC9 : OpeningRange := { orh := 105, orl := 100, range_size := 5, volume_avg := 0 }

/-- C9 witness: the two-bar series yields the range high 105 / low 100 with
non-negative size 5. -/
theorem C9_opening_range_wellformed_witness :
    orC9.orl ≤ orC9.orh ∧ orC9.range_size = orC9.orh - orC9.orl ∧ 0 ≤ orC9.range_size :=
  C9_opening_range_wellformed barsC9 orC9 (by decide)
    (by norm_num [calculate_opening_range, barsC9, orC9, listMean, tailMean])

/-- C10: the volume analysis is total even when the trailing 20-bar mean
volume is 0: both `volume_surge` and `volume_trend` fall back to 1 instead of
dividing by zero, so `is_strong_volume` is false. -/
theorem C10_zero_mean_volume_fallback (volumes : List ℚ)
    (h : tailMean 20 volumes = 0) :
    (enhanced_volume_analysis volumes).volume_surge = 1 ∧
    (enhanced_volume_analysis volumes).volume_trend = 1 ∧
    (enhanced_volume_analysis volumes).is_strong_volume = false := by
  unfold enhanced_volume_analysis
  rcases hl : volumes.getLast? with _ | v
  · exact ⟨rfl, rfl, rfl⟩
  · simp only [h]
    norm_num

/-- C10 witness: a two-bar all-zero volume series has trailing mean 0 and
falls back to surge 1, trend 1, strong-volume false. -/
theorem C10_zero_mean_volume_fallback_witness :
    (enhanced_volume_analysis [(0 : ℚ), 0]).volume_surge = 1 ∧
    (enhanced_volume_analysis [(0 : ℚ), 0]).volume_trend = 1 ∧
    (enhanced_volume_analysis [(0 : ℚ), 0]).is_strong_volume = false :=
  C10_zero_mean_volume_fallback [(0 : ℚ), 0] (by simp [tailMean, listMean])

end ORB
